import Mathlib

/-! Shallow embedding of src/app.go (package main of the peeq repository).

The external databases are modelled by a `World`: for every (backend type,
dsn) pair a `Backend` record describing how the driver and the engine behind
that dsn respond to the exact operations the Go code performs (open, ping,
the four SQL queries it issues).  The config store (`configDB`, a local
sqlite file) is modelled as a healthy in-memory store: its storage-failure
branches (`StorageError` paths of the spec) are host-machine failures no
claim depends on, so `Create`/`Find`/`First`/`Delete` against it never fail
here.  Two gorm facts are modelled explicitly because the code relies on
them:
 * `gorm.DB.Find(dest, id)` (app.go:156) reports NO error when zero rows
   match; the destination keeps its zero value (only `First`/`Take`/`Last`
   return gorm.ErrRecordNotFound).
 * `gorm.DB.DB()` cannot fail once `gorm.Open` with the postgres or sqlite
   driver has succeeded (the connection pool is always a *sql.DB), so the
   "failed to get underlying sql.DB" branches (app.go:177-180, 207-210,
   274-277, 353-356, 446-449) and the `rows.Columns()` failure branch on a
   freshly obtained row set (app.go:298-301) are dead and not modelled. -/

namespace Peeq

deriving instance DecidableEq for Except

/-- Dynamically typed SQL value as produced by a database/sql `Scan` into an
empty interface (app.go:306-313): SQL NULL, a raw byte slice, or a driver
value (int64, string, bool, or any other driver type, abstracted by a tag).
A byte slice is carried as the text it spells, because the only use the code
makes of it is the byte-for-byte conversion `string(v)` (app.go:322). -/
inductive RawValue where
  | null
  | bytes (s : String)
  | int (i : Int)
  | str (s : String)
  | bool (b : Bool)
  | other (tag : Nat)
  deriving DecidableEq

/-- Value stored in the decoded row map built at app.go:317-329. -/
inductive CellValue where
  | null
  | int (i : Int)
  | str (s : String)
  | bool (b : Bool)
  | other (tag : Nat)
  deriving DecidableEq

/-- One result row of the Postgres column query (app.go:369-377), as scanned
at app.go:392-393: (column_name, data_type, is_nullable as sql.NullString,
column_default as sql.NullString, is_primary as bool).  A sql.NullString is
an `Option String`. -/
structure PgColRow where
  name : String
  dataType : String
  isNullable : Option String
  columnDefault : Option String
  isPrimary : Bool
  deriving DecidableEq

/-- One result row of `PRAGMA table_info` (app.go:379), as scanned at
app.go:404-409: (cid, name, type, notnull, dflt_value, pk). -/
structure SqliteColRow where
  cid : Int
  name : String
  colType : String
  notNull : Int
  dfltValue : Option String
  pk : Int
  deriving DecidableEq

/-- Result of one SQL query: either a query-level error, or the list of
result rows where a row is `none` exactly when its `Scan` call fails. -/
abbrev QueryResult (A : Type) := Except Unit (List (Option A))

/-- Behaviour of the external database reachable through one (backend type,
dsn) pair: whether `gorm.Open` succeeds, whether `Ping` succeeds, and the
responses to the exact SQL texts the code issues.  `dataQuery` takes the
table name, then LIMIT, then OFFSET, matching the query built at
app.go:291, and returns the column names reported by `rows.Columns()`
together with the result rows. -/
structure Backend where
  openOk : Bool
  pingOk : Bool
  tablesQueryPostgres : QueryResult String
  tablesQuerySqlite : QueryResult String
  countQuery : String → Except Unit Int
  columnsQueryPostgres : String → QueryResult PgColRow
  columnsQuerySqlite : String → QueryResult SqliteColRow
  dataQuery : String → Nat → Nat → Except Unit (List String × List (Option (List RawValue)))

/-- The environment: what lives behind every (backend type, dsn) pair. -/
abbrev World := String → String → Backend

/-- The persisted Connection model (app.go:17-24).  The gorm timestamp
fields are never read by the code and are omitted. -/
structure Connection where
  id : Nat
  name : String
  type : String
  dsn : String
  deriving DecidableEq

/-- Go zero value of Connection: what `Find` leaves in its destination when
no row matches. -/
def zeroConnection : Connection := ⟨0, "", "", ""⟩

/-- TableInfo (app.go:26-30).  The Schema field is never assigned by
GetTables (always its zero value) and is omitted. -/
structure TableInfo where
  name : String
  rowCount : Int
  deriving DecidableEq

/-- ColumnInfo (app.go:32-38). -/
structure ColumnInfo where
  name : String
  type : String
  nullable : Bool
  defaultValue : String
  isPrimaryKey : Bool
  deriving DecidableEq

/-- A decoded data row: the Go `map[string]interface{}` built at
app.go:317-329, represented as an association list in column order (the
code writes one entry per result column). -/
abbrev Row := List (String × CellValue)

/-- TableData (app.go:40-44). -/
structure TableData where
  columns : List ColumnInfo
  rows : List Row
  total : Int
  deriving DecidableEq

/-- A live driver handle as held in App.activeDB: an identity (used to track
which handles the process still holds open) plus the backend type and dsn it
was opened against (app.go:163-170), which determine its behaviour. -/
structure Handle where
  hid : Nat
  dbType : String
  dsn : String
  deriving DecidableEq

/-- State of the App struct (app.go:47-52) together with its environment:
`profiles`/`nextId` model the contents of configDB (gorm auto-increment ids
start at 1); `activeDB`/`activeConnID` mirror the App fields (`none`/0 are
the Go zero values); `openHandles`/`nextHandle` model the set of driver
handles the process has opened and not yet closed, for the resource-release
claims.  `ctx` is never read and is omitted. -/
structure AppState where
  profiles : List Connection
  nextId : Nat
  activeDB : Option Handle
  activeConnID : Nat
  openHandles : List Nat
  nextHandle : Nat
  deriving DecidableEq

/-- App state right after startup (NewApp + initConfigDB on a fresh
config.db): zero-valued App fields, empty store. -/
def initialApp : AppState :=
  { profiles := [], nextId := 1, activeDB := none, activeConnID := 0,
    openHandles := [], nextHandle := 0 }

/-- The error kinds the embedded operations produce, one per fmt.Errorf
message the code can actually reach. -/
inductive AppError where
  | unsupportedBackend (t : String)
  | connectFailed
  | pingFailed
  | noActiveConnection
  | getConnInfoFailed
  | unsupportedBackendListing (t : String)
  | queryTablesFailed
  | columnsQueryFailed
  | columnInfoFailed
  | countFailed
  | queryDataFailed
  deriving DecidableEq

/-- saveConnection (app.go:102-115): gorm Create inserts the record and
assigns the next auto-increment id. -/
def saveConnection (s : AppState) (name dbType dsn : String) : AppState :=
  { s with profiles := s.profiles ++ [⟨s.nextId, name, dbType, dsn⟩],
           nextId := s.nextId + 1 }

/-- GetConnections (app.go:119-127): returns every stored record. -/
def GetConnections (s : AppState) : List Connection := s.profiles

/-- DeleteConnection (app.go:132-145): removes the record, then, if the
deleted id is the active one, clears activeDB and activeConnID.  Note the
code only nils the fields; it never closes the underlying handle. -/
def DeleteConnection (s : AppState) (id : Nat) : AppState :=
  let s1 := { s with profiles := s.profiles.filter (fun c => c.id != id) }
  if s1.activeConnID = id then { s1 with activeDB := none, activeConnID := 0 }
  else s1

/-- gorm `Find(&connection, id)` as used at app.go:156: when a row with that
primary key exists it is loaded, otherwise NO error is reported and the
destination keeps its zero value. -/
def findConnection (s : AppState) (id : Nat) : Connection :=
  (s.profiles.find? (fun c => c.id == id)).getD zeroConnection

/-- ConnectToDatabase (app.go:153-191).  The switch on connection.Type
(app.go:163-170) opens via the postgres or sqlite driver — modelled by one
World lookup keyed by that type string — and any other type string (in
particular the empty string left by a no-match Find) returns the
"unsupported database type" error.  On open success a handle is allocated;
NO path of this function closes a handle: ping failure returns leaving the
new handle open, and success overwrites activeDB without closing the
previous handle. -/
def ConnectToDatabase (w : World) (s : AppState) (id : Nat) :
    Except AppError Unit × AppState :=
  let connection := findConnection s id
  if connection.type = "postgres" ∨ connection.type = "sqlite" then
    let b := w connection.type connection.dsn
    if b.openOk then
      let s1 := { s with openHandles := s.openHandles ++ [s.nextHandle],
                         nextHandle := s.nextHandle + 1 }
      if b.pingOk then
        (.ok (), { s1 with
          activeDB := some ⟨s.nextHandle, connection.type, connection.dsn⟩,
          activeConnID := id })
      else (.error .pingFailed, s1)
    else (.error .connectFailed, s)
  else (.error (.unsupportedBackend connection.type), s)

/-- Closing one driver handle (sqlDB.Close). -/
def closeHandle (s : AppState) (hid : Nat) : AppState :=
  { s with openHandles := s.openHandles.filter (fun x => x != hid) }

/-- TestConnection (app.go:429-457): same open/ping probe as Connect but the
handle is ephemeral — `defer sqlDB.Close()` (app.go:450) closes it on both
exits after a successful open — and no App field is ever written. -/
def TestConnection (w : World) (s : AppState) (dbType dsn : String) :
    Except AppError Unit × AppState :=
  if dbType = "postgres" ∨ dbType = "sqlite" then
    let b := w dbType dsn
    if b.openOk then
      let s1 := { s with openHandles := s.openHandles ++ [s.nextHandle],
                         nextHandle := s.nextHandle + 1 }
      if b.pingOk then (.ok (), closeHandle s1 s.nextHandle)
      else (.error .pingFailed, closeHandle s1 s.nextHandle)
    else (.error .connectFailed, s)
  else (.error (.unsupportedBackend dbType), s)

/-- Row count fetched per table at app.go:249-253: on any error of the
COUNT(*) query the count is set to 0 instead of failing. -/
def rowCountOrZero (b : Backend) (tableName : String) : Int :=
  match b.countQuery tableName with
  | .ok c => c
  | .error _ => 0

/-- The loop at app.go:242-259: rows whose Scan fails are skipped
(`continue`), every other name is kept in arrival order with its
best-effort row count. -/
def tablesFromRows (b : Backend) (rows : List (Option String)) :
    List TableInfo :=
  rows.filterMap (fun r => r.map (fun n => TableInfo.mk n (rowCountOrZero b n)))

/-- GetTables (app.go:201-262): requires an active connection, reloads the
profile record by activeConnID via gorm First (which DOES error when the row
is absent), switches on its Type to pick the list-tables query, and runs the
queries against the active handle. -/
def GetTables (w : World) (s : AppState) : Except AppError (List TableInfo) :=
  match s.activeDB with
  | none => .error .noActiveConnection
  | some h =>
    match s.profiles.find? (fun c => c.id == s.activeConnID) with
    | none => .error .getConnInfoFailed
    | some connection =>
      let b := w h.dbType h.dsn
      if connection.type = "postgres" then
        match b.tablesQueryPostgres with
        | .error _ => .error .queryTablesFailed
        | .ok rows => .ok (tablesFromRows b rows)
      else if connection.type = "sqlite" then
        match b.tablesQuerySqlite with
        | .error _ => .error .queryTablesFailed
        | .ok rows => .ok (tablesFromRows b rows)
      else .error (.unsupportedBackendListing connection.type)

/-- Decode of one Postgres column row (app.go:390-401): Nullable is the
comparison of is_nullable against the literal "YES" (a NULL sql.NullString
reads as ""), DefaultValue is set only when valid, IsPrimaryKey is the
scanned boolean. -/
def decodePgCol (r : PgColRow) : ColumnInfo :=
  { name := r.name, type := r.dataType,
    nullable := r.isNullable.getD "" == "YES",
    defaultValue := r.columnDefault.getD "",
    isPrimaryKey := r.isPrimary }

/-- Decode of one sqlite PRAGMA row (app.go:402-418): Nullable is
notnull == 0, IsPrimaryKey is pk == 1, DefaultValue set only when valid. -/
def decodeSqliteCol (r : SqliteColRow) : ColumnInfo :=
  { name := r.name, type := r.colType,
    nullable := r.notNull == 0,
    defaultValue := r.dfltValue.getD "",
    isPrimaryKey := r.pk == 1 }

/-- getColumnInfo (app.go:352-422): reloads the profile by activeConnID
(gorm First), switches on its Type to pick the column query, runs it on the
active handle `h` (passed explicitly here; the Go code re-reads a.activeDB,
which its only caller has just null-checked), and decodes row by row,
skipping any row whose Scan fails (`continue` at app.go:394 and 410). -/
def getColumnInfo (w : World) (s : AppState) (h : Handle)
    (tableName : String) : Except AppError (List ColumnInfo) :=
  match s.profiles.find? (fun c => c.id == s.activeConnID) with
  | none => .error .getConnInfoFailed
  | some connection =>
    let b := w h.dbType h.dsn
    if connection.type = "postgres" then
      match b.columnsQueryPostgres tableName with
      | .error _ => .error .columnsQueryFailed
      | .ok rows => .ok (rows.filterMap (fun r => r.map decodePgCol))
    else if connection.type = "sqlite" then
      match b.columnsQuerySqlite tableName with
      | .error _ => .error .columnsQueryFailed
      | .ok rows => .ok (rows.filterMap (fun r => r.map decodeSqliteCol))
    else .error (.unsupportedBackend connection.type)

/-- The value conversion inside the decode loop (app.go:319-328): nil is
stored as an explicit nil entry, a byte slice is converted to string, every
other value is stored unchanged. -/
def decodeVal : RawValue → CellValue
  | .null => .null
  | .bytes s => .str s
  | .int i => .int i
  | .str s => .str s
  | .bool b => .bool b
  | .other t => .other t

/-- The row map built at app.go:317-329: one entry per result column, keyed
by column name.  A successful Scan guarantees exactly one value per column
(a width mismatch makes Scan fail and the row is skipped upstream), so the
zip is exact in every reachable use. -/
def decodeRow (columnNames : List String) (values : List RawValue) : Row :=
  (columnNames.zip values).map (fun p => (p.1, decodeVal p.2))

/-- GetTableData (app.go:269-340): requires an active connection, resolves
column metadata (any getColumnInfo error is wrapped as "failed to get column
info"), runs COUNT(*) for the total, fetches the page with LIMIT/OFFSET, and
decodes the rows, skipping any row whose Scan fails.  offset and limit are
Go ints; all reachable calls pass nonnegative values (the two dialects
disagree about negative LIMIT), so they are taken as Nat. -/
def GetTableData (w : World) (s : AppState) (tableName : String)
    (offset limit : Nat) : Except AppError TableData :=
  match s.activeDB with
  | none => .error .noActiveConnection
  | some h =>
    match getColumnInfo w s h tableName with
    | .error _ => .error .columnInfoFailed
    | .ok columns =>
      let b := w h.dbType h.dsn
      match b.countQuery tableName with
      | .error _ => .error .countFailed
      | .ok total =>
        match b.dataQuery tableName limit offset with
        | .error _ => .error .queryDataFailed
        | .ok (columnNames, rawRows) =>
          .ok { columns := columns,
                rows := rawRows.filterMap (fun r => r.map (decodeRow columnNames)),
                total := total }

/-- One invocation of a public App operation, for the reachable-state
invariant. -/
inductive Op where
  | connect (w : World) (id : Nat)
  | delete (id : Nat)
  | test (w : World) (dbType dsn : String)
  | tables (w : World)
  | page (w : World) (tableName : String) (offset limit : Nat)
  | save (name dbType dsn : String)
  | list

/-- State effect of each public operation.  GetTables, GetTableData and
GetConnections write no App field (app.go:201-340, 119-127), so they leave
the state unchanged. -/
def runOp (s : AppState) : Op → AppState
  | .connect w id => (ConnectToDatabase w s id).2
  | .delete id => DeleteConnection s id
  | .test w t d => (TestConnection w s t d).2
  | .tables _ => s
  | .page _ _ _ _ => s
  | .save n t d => saveConnection s n t d
  | .list => s

/-- Invariant carried through the reachability induction: the active pair is
set or cleared together, and every store-assigned profile id is at least
1 (gorm auto-increment starts at 1). -/
def GoodState (s : AppState) : Prop :=
  (s.activeDB = none ↔ s.activeConnID = 0) ∧ 1 ≤ s.nextId ∧
    ∀ c ∈ s.profiles, 1 ≤ c.id

/-- Backend behind a (type, dsn) pair no scenario registered: nothing
works. -/
def emptyBackend : Backend where
  openOk := false
  pingOk := false
  tablesQueryPostgres := .error ()
  tablesQuerySqlite := .error ()
  countQuery := fun _ => .error ()
  columnsQueryPostgres := fun _ => .error ()
  columnsQuerySqlite := fun _ => .error ()
  dataQuery := fun _ _ _ => .error ()

/-- Contents of the demo table "t". -/
def demoTableRows : List (List RawValue) :=
  [[.int 1, .str "a"], [.null, .bytes "b"]]

/-- A live sqlite database used to instantiate the theorems: table "t" with
two rows served with honest COUNT/LIMIT/OFFSET semantics, and table "u"
whose page has one row that fails to Scan and one null value. -/
def demoBackend : Backend where
  openOk := true
  pingOk := true
  tablesQueryPostgres := .error ()
  tablesQuerySqlite := .ok [some "t", none, some "u", some "v"]
  countQuery := fun t =>
    if t = "t" then .ok 2 else if t = "u" then .ok 3 else .error ()
  columnsQueryPostgres := fun _ => .error ()
  columnsQuerySqlite := fun t =>
    if t = "t" then
      .ok [some ⟨0, "id", "INTEGER", 0, none, 1⟩, none,
           some ⟨1, "name", "TEXT", 1, some "x", 0⟩]
    else if t = "u" then .ok []
    else .error ()
  dataQuery := fun t limit offset =>
    if t = "t" then
      .ok (["id", "name"], ((demoTableRows.drop offset).take limit).map some)
    else if t = "u" then .ok (["x"], [some [.int 7], none, some [.null]])
    else .error ()

/-- World holding demoBackend at ("sqlite", "demo"). -/
def demoWorld : World := fun t d =>
  if t = "sqlite" ∧ d = "demo" then demoBackend else emptyBackend

/-- App state with profile 1 = ("local", "sqlite", "demo") saved and
actively connected: exactly the state produced by saveConnection followed by
a successful ConnectToDatabase against demoWorld. -/
def demoState : AppState :=
  { profiles := [⟨1, "local", "sqlite", "demo"⟩], nextId := 2,
    activeDB := some ⟨0, "sqlite", "demo"⟩, activeConnID := 1,
    openHandles := [0], nextHandle := 1 }

/-- Backend that opens but cannot be pinged. -/
def pingFailBackend : Backend :=
  { emptyBackend with openOk := true, pingOk := false }

/-- World holding pingFailBackend at ("sqlite", "bad"). -/
def pingFailWorld : World := fun t d =>
  if t = "sqlite" ∧ d = "bad" then pingFailBackend else emptyBackend

/-- Backend that opens and pings, for the connection-switch scenario. -/
def reachableBackend : Backend :=
  { emptyBackend with openOk := true, pingOk := true }

/-- World where every sqlite dsn is reachable. -/
def reachableWorld : World := fun t _ =>
  if t = "sqlite" then reachableBackend else emptyBackend

/-- State with one stored profile whose dsn opens but does not ping. -/
def pingFailState : AppState := saveConnection initialApp "b" "sqlite" "bad"

/-- State with two stored sqlite profiles, for the connection switch. -/
def switchBase : AppState :=
  saveConnection (saveConnection initialApp "a" "sqlite" "d1") "b" "sqlite" "d2"

/-- switchBase after a successful Connect(1): handle 0 is active. -/
def switchAfterFirst : AppState :=
  (ConnectToDatabase reachableWorld switchBase 1).2

/-- switchAfterFirst after a successful Connect(2): handle 1 is active. -/
def switchAfterSecond : AppState :=
  (ConnectToDatabase reachableWorld switchAfterFirst 2).2

theorem filter_ne_append_self (l : List Nat) (a : Nat) (ha : a ∉ l) :
    (l ++ [a]).filter (fun x => x != a) = l := by
  induction l with
  | nil => simp
  | cons b l ih =>
    simp only [List.mem_cons, not_or] at ha
    have hb : (b != a) = true := by
      simp only [bne_iff_ne, ne_eq]
      exact fun h => ha.1 h.symm
    simp [List.filter_cons, hb, ih ha.2]

/-- C1 (code_bug evidence): ConnectToDatabase on a profile id absent from
the store (42, while only profile 1 is stored and active) fails with the
"unsupported database type" error on the empty type string — gorm Find
reports no error on zero matching rows, so the "connection not found"
branch at app.go:157 is unreachable for an absent id — and the whole state,
the active connection included, is unchanged. -/
theorem ConnectToDatabase_absent_profile_is_unsupported :
    ConnectToDatabase demoWorld demoState 42 =
      (.error (.unsupportedBackend ""), demoState) := by decide

/-- C2 (code_bug evidence): connecting to stored profile 1, whose dsn opens
but fails to ping, returns the "failed to ping database" error and leaves
the active connection clear, but the handle opened during the call (id 0)
is still open when ConnectToDatabase returns: no path of app.go:153-191
closes a handle. -/
theorem ConnectToDatabase_ping_failure_leaks_handle :
    ConnectToDatabase pingFailWorld pingFailState 1 =
      (.error .pingFailed,
       { pingFailState with openHandles := [0], nextHandle := 1 }) ∧
    0 ∈ (ConnectToDatabase pingFailWorld pingFailState 1).2.openHandles := by
  decide

/-- C3 (code_bug evidence): with profile 1 active on handle 0, a successful
Connect(2) replaces the active connection with the newly opened handle 1,
but the previous active handle 0 is never closed: it is still among the
open handles after the call. -/
theorem ConnectToDatabase_switch_leaks_previous_handle :
    switchAfterFirst.activeDB = some ⟨0, "sqlite", "d1"⟩ ∧
    (ConnectToDatabase reachableWorld switchAfterFirst 2).1 = .ok () ∧
    switchAfterSecond.activeDB = some ⟨1, "sqlite", "d2"⟩ ∧
    switchAfterSecond.activeConnID = 2 ∧
    switchAfterSecond.openHandles = [0, 1] := by decide

/-- C4: TestConnection leaves the active connection (activeDB and
activeConnID) exactly unchanged on every outcome, and every ephemeral
handle it opens is closed again before it returns (the set of open handles
is unchanged), whether the probe fails at open, fails at ping, or
succeeds. -/
theorem TestConnection_frame (w : World) (s : AppState) (t d : String)
    (hfresh : s.nextHandle ∉ s.openHandles) :
    (TestConnection w s t d).2.activeDB = s.activeDB ∧
    (TestConnection w s t d).2.activeConnID = s.activeConnID ∧
    (TestConnection w s t d).2.openHandles = s.openHandles := by
  by_cases h1 : t = "postgres" ∨ t = "sqlite"
  · by_cases h2 : (w t d).openOk = true
    · by_cases h3 : (w t d).pingOk = true
      · simp [TestConnection, closeHandle, h1, h2, h3,
              filter_ne_append_self _ _ hfresh]
      · simp [TestConnection, closeHandle, h1, h2, h3,
              filter_ne_append_self _ _ hfresh]
    · simp [TestConnection, h1, h2]
  · simp [TestConnection, h1]

/-- Witness for C4 at a concrete probe that opens and then fails to ping. -/
theorem TestConnection_frame_witness :
    demoState.nextHandle ∉ demoState.openHandles ∧
    ((TestConnection pingFailWorld demoState "sqlite" "bad").2.activeDB =
        demoState.activeDB ∧
     (TestConnection pingFailWorld demoState "sqlite" "bad").2.activeConnID =
        demoState.activeConnID ∧
     (TestConnection pingFailWorld demoState "sqlite" "bad").2.openHandles =
        demoState.openHandles) :=
  ⟨by decide, TestConnection_frame pingFailWorld demoState "sqlite" "bad" (by decide)⟩

/-- C9: after Delete(id), List never returns an entry with that id; and when
id was the active profile's id, the active connection is cleared, so a
subsequent GetTables fails with the no-active-connection error. -/
theorem DeleteConnection_clears_active_and_listing (s : AppState) (id : Nat) :
    (∀ c ∈ GetConnections (DeleteConnection s id), c.id ≠ id) ∧
    (s.activeConnID = id →
      (DeleteConnection s id).activeDB = none ∧
      (DeleteConnection s id).activeConnID = 0 ∧
      ∀ w, GetTables w (DeleteConnection s id) = .error .noActiveConnection) := by
  constructor
  · intro c hc
    have hp : (DeleteConnection s id).profiles =
        s.profiles.filter (fun c => c.id != id) := by
      simp only [DeleteConnection]
      split <;> rfl
    unfold GetConnections at hc
    rw [hp] at hc
    simpa using (List.mem_filter.mp hc).2
  · intro h
    simp only [DeleteConnection]
    split
    · exact ⟨rfl, rfl, fun w => rfl⟩
    · rename_i hcond
      exact absurd h hcond

/-- Witness for C9: deleting the active profile 1 of demoState. -/
theorem DeleteConnection_clears_active_witness :
    demoState.activeConnID = 1 ∧
    (DeleteConnection demoState 1).activeDB = none ∧
    (DeleteConnection demoState 1).activeConnID = 0 ∧
    GetTables demoWorld (DeleteConnection demoState 1) =
      .error .noActiveConnection := by
  have h := (DeleteConnection_clears_active_and_listing demoState 1).2 rfl
  exact ⟨rfl, h.1, h.2.1, h.2.2 demoWorld⟩

theorem filterMap_map_some {A B : Type} (f : A → B) (l : List A) :
    (l.map some).filterMap (fun r => r.map f) = l.map f := by
  induction l with
  | nil => rfl
  | cons a l ih => simp [List.filterMap_cons, ih]

theorem decodeRow_eq_zip_map (c : List String) (v : List RawValue) :
    decodeRow c v = c.zip (v.map decodeVal) := by
  induction c generalizing v with
  | nil => simp [decodeRow]
  | cons a c ih =>
    cases v with
    | nil => simp [decodeRow]
    | cons b v =>
      have := ih v
      simp only [decodeRow] at this ⊢
      simp [this]

theorem decodeRow_keys (c : List String) (v : List RawValue)
    (hl : v.length = c.length) :
    (decodeRow c v).map Prod.fst = c := by
  rw [decodeRow_eq_zip_map]
  apply List.map_fst_zip
  simp [hl]

theorem GetTableData_ok (w : World) (s : AppState) (h : Handle)
    (conn : Connection) (t : String) (offset limit : Nat)
    (colRows : List (Option SqliteColRow)) (total : Int)
    (colNames : List String) (rawRows : List (Option (List RawValue)))
    (ha : s.activeDB = some h)
    (hc : s.profiles.find? (fun c => c.id == s.activeConnID) = some conn)
    (ht : conn.type = "sqlite")
    (hcols : (w h.dbType h.dsn).columnsQuerySqlite t = .ok colRows)
    (hcount : (w h.dbType h.dsn).countQuery t = .ok total)
    (hdata : (w h.dbType h.dsn).dataQuery t limit offset = .ok (colNames, rawRows)) :
    GetTableData w s t offset limit =
      .ok ⟨colRows.filterMap (fun r => r.map decodeSqliteCol),
           rawRows.filterMap (fun r => r.map (decodeRow colNames)),
           total⟩ := by
  have hcol : getColumnInfo w s h t =
      .ok (colRows.filterMap (fun r => r.map decodeSqliteCol)) := by
    unfold getColumnInfo
    rw [hc]
    simp [ht, hcols]
  unfold GetTableData
  rw [ha]
  simp [hcol, hcount, hdata]

/-- C5: with the active sqlite backend serving table t honestly (COUNT is
the table length, LIMIT/OFFSET is take/drop), GetTableData returns the
correct total, rows.length = min limit (total - offset) — so offset 0 gives
min limit total, and offset beyond the total gives an empty page with the
correct total — and always rows.length ≤ limit and rows.length ≤ total. -/
theorem GetTableData_pagination (w : World) (s : AppState) (h : Handle)
    (conn : Connection) (t : String) (offset limit : Nat)
    (colRows : List (Option SqliteColRow)) (cols : List String)
    (content : List (List RawValue))
    (ha : s.activeDB = some h)
    (hc : s.profiles.find? (fun c => c.id == s.activeConnID) = some conn)
    (ht : conn.type = "sqlite")
    (hcols : (w h.dbType h.dsn).columnsQuerySqlite t = .ok colRows)
    (hcount : (w h.dbType h.dsn).countQuery t = .ok (content.length : Int))
    (hdata : (w h.dbType h.dsn).dataQuery t limit offset =
      .ok (cols, ((content.drop offset).take limit).map some)) :
    ∃ page, GetTableData w s t offset limit = .ok page ∧
      page.total = (content.length : Int) ∧
      page.rows.length = min limit (content.length - offset) ∧
      (offset = 0 → page.rows.length = min limit content.length) ∧
      (content.length ≤ offset → page.rows = []) ∧
      page.rows.length ≤ limit ∧
      (page.rows.length : Int) ≤ page.total := by
  have hmain := GetTableData_ok w s h conn t offset limit colRows
    (content.length : Int) cols (((content.drop offset).take limit).map some)
    ha hc ht hcols hcount hdata
  refine ⟨_, hmain, rfl, ?_, ?_, ?_, ?_, ?_⟩ <;>
    simp only [filterMap_map_some, List.length_map, List.length_take,
      List.length_drop]
  · intro h0
    simp [h0]
  · intro hle
    rw [List.drop_eq_nil_of_le hle]
    simp
  · exact Nat.min_le_left _ _
  · exact_mod_cast Nat.le_trans (Nat.min_le_right _ _) (Nat.sub_le _ _)

/-- Witness for C5: page of size 1 from demo table t (2 rows). -/
theorem GetTableData_pagination_witness :
    ∃ page, GetTableData demoWorld demoState "t" 0 1 = .ok page ∧
      page.total = (demoTableRows.length : Int) ∧
      page.rows.length = min 1 (demoTableRows.length - 0) ∧
      (0 = 0 → page.rows.length = min 1 demoTableRows.length) ∧
      (demoTableRows.length ≤ 0 → page.rows = []) ∧
      page.rows.length ≤ 1 ∧
      (page.rows.length : Int) ≤ page.total :=
  GetTableData_pagination demoWorld demoState ⟨0, "sqlite", "demo"⟩
    ⟨1, "local", "sqlite", "demo"⟩ "t" 0 1
    [some ⟨0, "id", "INTEGER", 0, none, 1⟩, none,
     some ⟨1, "name", "TEXT", 1, some "x", 0⟩]
    ["id", "name"] demoTableRows rfl rfl rfl rfl rfl rfl

/-- C6: the page decodes each scanned row into a column-name-keyed mapping
(one entry per result column, in order), a SQL null stays as an explicit
null entry, byte-sequence values are coerced to text, and a row whose Scan
fails is skipped while the page still succeeds. -/
theorem GetTableData_decode (w : World) (s : AppState) (h : Handle)
    (conn : Connection) (t : String) (offset limit : Nat)
    (colRows : List (Option SqliteColRow)) (total : Int)
    (colNames : List String) (rawRows : List (Option (List RawValue)))
    (ha : s.activeDB = some h)
    (hc : s.profiles.find? (fun c => c.id == s.activeConnID) = some conn)
    (ht : conn.type = "sqlite")
    (hcols : (w h.dbType h.dsn).columnsQuerySqlite t = .ok colRows)
    (hcount : (w h.dbType h.dsn).countQuery t = .ok total)
    (hdata : (w h.dbType h.dsn).dataQuery t limit offset = .ok (colNames, rawRows)) :
    (∃ page, GetTableData w s t offset limit = .ok page ∧
       page.rows = rawRows.filterMap (fun r => r.map (decodeRow colNames))) ∧
    (∀ v, decodeRow colNames v = colNames.zip (v.map decodeVal)) ∧
    (∀ v, v.length = colNames.length →
       (decodeRow colNames v).map Prod.fst = colNames) ∧
    decodeVal .null = .null ∧
    (∀ bs, decodeVal (.bytes bs) = .str bs) :=
  ⟨⟨_, GetTableData_ok w s h conn t offset limit colRows total colNames rawRows
       ha hc ht hcols hcount hdata, rfl⟩,
   fun v => decodeRow_eq_zip_map _ v,
   fun v hv => decodeRow_keys _ v hv,
   rfl, fun _ => rfl⟩

/-- Witness for C6 at demo table u: one row fails to Scan and is skipped,
the null row decodes to an explicit null entry. -/
theorem GetTableData_decode_witness :
    (∃ page, GetTableData demoWorld demoState "u" 0 5 = .ok page ∧
       page.rows = [some [RawValue.int 7], none,
                    some [RawValue.null]].filterMap
         (fun r => r.map (decodeRow ["x"]))) ∧
    (∀ v, decodeRow ["x"] v = ["x"].zip (v.map decodeVal)) ∧
    (∀ v, v.length = ["x"].length →
       (decodeRow ["x"] v).map Prod.fst = ["x"]) ∧
    decodeVal .null = .null ∧
    (∀ bs, decodeVal (.bytes bs) = .str bs) :=
  GetTableData_decode demoWorld demoState ⟨0, "sqlite", "demo"⟩
    ⟨1, "local", "sqlite", "demo"⟩ "u" 0 5 [] 3 ["x"]
    [some [RawValue.int 7], none, some [RawValue.null]]
    rfl rfl rfl rfl rfl rfl

/-- C7: every table name the list-tables query returns (every row of it
whose Scan succeeds) yields one TableDescriptor, kept in arrival order with
no re-sorting, even when that table's row-count query fails — in which case
its rowCount is 0 instead of an error. -/
theorem GetTables_includes_every_table (w : World) (s : AppState) (h : Handle)
    (conn : Connection) (rows : List (Option String))
    (ha : s.activeDB = some h)
    (hc : s.profiles.find? (fun c => c.id == s.activeConnID) = some conn)
    (hq : conn.type = "postgres" ∧
            (w h.dbType h.dsn).tablesQueryPostgres = .ok rows ∨
          conn.type = "sqlite" ∧
            (w h.dbType h.dsn).tablesQuerySqlite = .ok rows) :
    GetTables w s = .ok (rows.filterMap (fun r => r.map
        (fun n => TableInfo.mk n (rowCountOrZero (w h.dbType h.dsn) n)))) ∧
    (∀ n, (w h.dbType h.dsn).countQuery n = .error () →
       rowCountOrZero (w h.dbType h.dsn) n = 0) := by
  constructor
  · cases hq with
    | inl hpq =>
      unfold GetTables
      rw [ha]
      simp [hc, hpq.1, hpq.2, tablesFromRows]
    | inr hsq =>
      unfold GetTables
      rw [ha]
      simp [hc, hsq.1, hsq.2, tablesFromRows]
  · intro n hn
    simp [rowCountOrZero, hn]

/-- Witness for C7: demo listing where table v's count query fails and v is
still listed with rowCount 0, after the unscannable name row is skipped. -/
theorem GetTables_includes_every_table_witness :
    GetTables demoWorld demoState =
      .ok ([some "t", none, some "u", some "v"].filterMap (fun r => r.map
        (fun n => TableInfo.mk n (rowCountOrZero (demoWorld "sqlite" "demo") n)))) ∧
    (∀ n, (demoWorld "sqlite" "demo").countQuery n = .error () →
       rowCountOrZero (demoWorld "sqlite" "demo") n = 0) :=
  GetTables_includes_every_table demoWorld demoState ⟨0, "sqlite", "demo"⟩
    ⟨1, "local", "sqlite", "demo"⟩ [some "t", none, some "u", some "v"]
    rfl rfl (Or.inr ⟨rfl, rfl⟩)

/-- C8: ListColumns derives nullable from the literal string "YES" for
Postgres and from notnull == 0 for SQLite, the primary-key flag from the
scanned boolean for Postgres and from pk == 1 for SQLite, and skips (rather
than failing on) any column row whose Scan fails. -/
theorem getColumnInfo_decodes_columns (w : World) (s : AppState) (h : Handle)
    (conn : Connection)
    (hc : s.profiles.find? (fun c => c.id == s.activeConnID) = some conn) :
    (∀ t rows, conn.type = "postgres" →
       (w h.dbType h.dsn).columnsQueryPostgres t = .ok rows →
       getColumnInfo w s h t =
         .ok (rows.filterMap (fun r => r.map decodePgCol))) ∧
    (∀ t rows, conn.type = "sqlite" →
       (w h.dbType h.dsn).columnsQuerySqlite t = .ok rows →
       getColumnInfo w s h t =
         .ok (rows.filterMap (fun r => r.map decodeSqliteCol))) ∧
    (∀ r : PgColRow,
       (decodePgCol r).nullable = (r.isNullable.getD "" == "YES") ∧
       (decodePgCol r).isPrimaryKey = r.isPrimary) ∧
    (∀ r : SqliteColRow,
       (decodeSqliteCol r).nullable = (r.notNull == 0) ∧
       (decodeSqliteCol r).isPrimaryKey = (r.pk == 1)) := by
  refine ⟨?_, ?_, fun r => ⟨rfl, rfl⟩, fun r => ⟨rfl, rfl⟩⟩
  · intro t rows ht hq
    unfold getColumnInfo
    rw [hc]
    simp [ht, hq]
  · intro t rows ht hq
    unfold getColumnInfo
    rw [hc]
    simp [ht, hq]

/-- Witness for C8: sqlite column decode on demo table t, with the
unscannable middle row skipped. -/
theorem getColumnInfo_decodes_columns_witness :
    getColumnInfo demoWorld demoState ⟨0, "sqlite", "demo"⟩ "t" =
      .ok ([some ⟨0, "id", "INTEGER", 0, none, 1⟩, none,
            some ⟨1, "name", "TEXT", 1, some "x", 0⟩].filterMap
        (fun r => r.map decodeSqliteCol)) :=
  (getColumnInfo_decodes_columns demoWorld demoState ⟨0, "sqlite", "demo"⟩
    ⟨1, "local", "sqlite", "demo"⟩ rfl).2.1 "t" _ rfl rfl

theorem goodState_initial : GoodState initialApp := by
  refine ⟨by simp [initialApp], by simp [initialApp], ?_⟩
  intro c hc
  simp [initialApp] at hc

theorem goodState_connect (w : World) (s : AppState) (id : Nat)
    (hs : GoodState s) : GoodState (ConnectToDatabase w s id).2 := by
  obtain ⟨hiff, hnext, hids⟩ := hs
  cases hf : s.profiles.find? (fun c => c.id == id) with
  | none =>
    simp only [ConnectToDatabase, findConnection, hf, Option.getD_none]
    rw [if_neg (by decide)]
    exact ⟨hiff, hnext, hids⟩
  | some c =>
    have hcid : c.id = id := by simpa using List.find?_some hf
    have hc1 : 1 ≤ c.id := hids c (List.mem_of_find?_eq_some hf)
    simp only [ConnectToDatabase, findConnection, hf, Option.getD_some]
    split_ifs with h1 h2 h3
    · refine ⟨?_, hnext, hids⟩
      dsimp only
      constructor
      · intro habs
        exact (Option.some_ne_none _ habs).elim
      · intro habs
        exact absurd habs (by omega)
    · exact ⟨hiff, hnext, hids⟩
    · exact ⟨hiff, hnext, hids⟩
    · exact ⟨hiff, hnext, hids⟩

theorem goodState_delete (s : AppState) (id : Nat) (hs : GoodState s) :
    GoodState (DeleteConnection s id) := by
  obtain ⟨hiff, hnext, hids⟩ := hs
  have hkept : ∀ c ∈ s.profiles.filter (fun c => c.id != id), 1 ≤ c.id :=
    fun c hc => hids c (List.mem_of_mem_filter hc)
  simp only [DeleteConnection]
  split_ifs with h
  · exact ⟨by simp, hnext, hkept⟩
  · exact ⟨hiff, hnext, hkept⟩

theorem goodState_test (w : World) (s : AppState) (t d : String)
    (hs : GoodState s) : GoodState (TestConnection w s t d).2 := by
  obtain ⟨hiff, hnext, hids⟩ := hs
  simp only [TestConnection, closeHandle]
  split_ifs <;> exact ⟨hiff, hnext, hids⟩

theorem goodState_save (s : AppState) (n t d : String) (hs : GoodState s) :
    GoodState (saveConnection s n t d) := by
  obtain ⟨hiff, hnext, hids⟩ := hs
  refine ⟨hiff, by simp only [saveConnection]; omega, ?_⟩
  intro c hc
  simp only [saveConnection, List.mem_append, List.mem_singleton] at hc
  cases hc with
  | inl h => exact hids c h
  | inr h =>
    subst h
    simpa using hnext

theorem goodState_runOp (s : AppState) (op : Op) (hs : GoodState s) :
    GoodState (runOp s op) := by
  cases op with
  | connect w id => exact goodState_connect w s id hs
  | delete id => exact goodState_delete s id hs
  | test w t d => exact goodState_test w s t d hs
  | tables _ => exact hs
  | page _ _ _ _ => exact hs
  | save n t d => exact goodState_save s n t d hs
  | list => exact hs

theorem goodState_reachable (ops : List Op) :
    GoodState (ops.foldl runOp initialApp) := by
  have hgen : ∀ t, GoodState t → GoodState (ops.foldl runOp t) := by
    induction ops with
    | nil => exact fun t ht => ht
    | cons op ops ih =>
      exact fun t ht => ih (runOp t op) (goodState_runOp t op ht)
  exact hgen initialApp goodState_initial

/-- C10: in every state reachable from the initial App state by any sequence
of the public operations (Connect, Delete, TestConnection, ListTables,
GetPage, Save, List), the active handle and the active profile id are set
or cleared together: activeDB is nil exactly when activeConnID is 0
(store-assigned ids start at 1, so 0 is the no-connection sentinel). -/
theorem reachable_active_handle_iff_id (ops : List Op) :
    (ops.foldl runOp initialApp).activeDB = none ↔
    (ops.foldl runOp initialApp).activeConnID = 0 :=
  (goodState_reachable ops).1

end Peeq
